import Mathlib

/-!
Verification of the MovingAI benchmark map library (`movingai-rust`),
shallow-embedded from `src/lib.rs`.

The embedding models Rust `usize` coordinates as `Nat`, the cell vector as
`List Char`, and operations that can fail at runtime (vector indexing, the
constructor's dimension check) as `Option`-valued functions where `none`
stands for the failure.  `usize as i32` casts are modelled by two's-complement
truncation to 32 bits.
-/

/-- Coordinates in `(x, y)` format, mirroring `type Coords2D = (usize, usize)`.
The Rust fields `.0`/`.1` correspond to `.1`/`.2` of the Lean pair. -/
abbrev Coords2D := Nat × Nat

/-- The immutable map representation, mirroring `struct MovingAiMap`. -/
structure MovingAiMap where
  map_type : String
  height : Nat
  width : Nat
  map : List Char

/-- Well-formedness established by the constructor `MovingAiMap::new`:
the cell vector has exactly `height * width` entries. -/
def MovingAiMap.wf (m : MovingAiMap) : Prop :=
  m.map.length = m.height * m.width

instance (m : MovingAiMap) : Decidable m.wf := by
  unfold MovingAiMap.wf; infer_instance

/-- Embeds `MovingAiMap::new`: the constructor panics (here: `none`) when the
supplied vector length differs from `height*width`, and otherwise returns the
object with exactly the supplied fields. -/
def MovingAiMap.new (map_type : String) (height width : Nat) (map : List Char) :
    Option MovingAiMap :=
  if map.length ≠ height * width then none
  else some ⟨map_type, height, width, map⟩

/-- Models the Rust cast `usize as i32`: keep the low 32 bits and reinterpret
them as a signed two's-complement value. -/
def usizeAsI32 (n : Nat) : Int :=
  let r : Nat := n % 2 ^ 32
  if r < 2 ^ 31 then (r : Int) else (r : Int) - 2 ^ 32

/-- Embeds the private method `MovingAiMap::coordinates_connect`.  The four
coordinates are cast with `as i32`; the `i32` arithmetic itself is modelled
over `Int`. -/
def MovingAiMap.coordinates_connect (m : MovingAiMap) (coordsA coordsB : Coords2D) : Bool :=
  let x1 := usizeAsI32 coordsA.1
  let x2 := usizeAsI32 coordsB.1
  let y1 := usizeAsI32 coordsA.2
  let y2 := usizeAsI32 coordsB.2
  if m.map_type = "octile" then
    decide ((x1 - x2).natAbs ≤ 1) && decide ((y1 - y2).natAbs ≤ 1)
  else
    decide ((y2 = y1 ∧ (x2 = x1 + 1 ∨ x2 = x1 - 1)) ∨ (x2 = x1 ∧ (y2 = y1 + 1 ∨ y2 = y1 - 1)))

/-- Embeds `get_cell`: `&self.map[coords.1 * width + coords.0]`.  The Rust
vector access panics when the flat index is out of range; `none` models that
panic.  No per-axis bound is checked by the code. -/
def MovingAiMap.get_cell (m : MovingAiMap) (coords : Coords2D) : Option Char :=
  m.map.get? (coords.2 * m.width + coords.1)

/-- Embeds `is_out_of_bound`: `coords.0 >= self.width || coords.1 >= self.height`. -/
def MovingAiMap.is_out_of_bound (m : MovingAiMap) (coords : Coords2D) : Bool :=
  decide (coords.1 ≥ m.width) || decide (coords.2 ≥ m.height)

/-- The single-tile label table matched inside `is_traversable`, arm by arm. -/
def tile_table (tile_char : Char) : Bool :=
  if tile_char = '.' then true
  else if tile_char = 'G' then true
  else if tile_char = '@' then false
  else if tile_char = 'O' then false
  else if tile_char = 'T' then false
  else if tile_char = 'S' then true
  else if tile_char = 'W' then true
  else false

/-- Embeds `is_traversable`: bound check first (returning `false`), then the
label table on the fetched cell.  The `none` branch mirrors the (unreachable
for well-formed maps) indexing panic inside `get_cell`. -/
def MovingAiMap.is_traversable (m : MovingAiMap) (tile : Coords2D) : Option Bool :=
  if m.is_out_of_bound tile then some false
  else
    match m.get_cell tile with
    | none => none
    | some tile_char => some (tile_table tile_char)

/-- The `(tile_char, from_char)` match of `is_traversable_from`, arm by arm in
source order. -/
def traverse_table (tile_char from_char : Char) : Bool :=
  if tile_char = '.' then true
  else if tile_char = 'G' then true
  else if tile_char = '@' then false
  else if tile_char = 'O' then false
  else if tile_char = 'T' then false
  else if tile_char = 'S' ∧ from_char = '.' then true
  else if tile_char = 'S' ∧ from_char = 'S' then true
  else if tile_char = 'W' ∧ from_char = 'W' then true
  else false

/-- Embeds `is_traversable_from`: bound checks on `to` then `from_` (returning
`false`), the `coordinates_connect(to, from)` adjacency check, then the
`(tile_char, from_char)` table on the two fetched cells.  There is no other
branch in the source: in particular no diagonal/corner handling. -/
def MovingAiMap.is_traversable_from (m : MovingAiMap) (from_ to_ : Coords2D) : Option Bool :=
  if m.is_out_of_bound to_ then some false
  else if m.is_out_of_bound from_ then some false
  else if !(m.coordinates_connect to_ from_) then some false
  else
    match m.get_cell to_, m.get_cell from_ with
    | some tile_char, some from_char => some (traverse_table tile_char from_char)
    | _, _ => none

/-- The orthogonal/any-topology terrain table exactly as the specification
words it, keyed by `(label(to), label(from))`: destination `.` or `G` is
enterable from any source; `@`, `O`, `T` from no source; `S` only from `.` or
`S`; `W` only from `W`; anything else from no source. -/
def spec_table (to_char from_char : Char) : Bool :=
  if to_char = '.' ∨ to_char = 'G' then true
  else if to_char = '@' ∨ to_char = 'O' ∨ to_char = 'T' then false
  else if to_char = 'S' then decide (from_char = '.' ∨ from_char = 'S')
  else if to_char = 'W' then decide (from_char = 'W')
  else false

/-- A 2×2 octile map whose two corner tiles of the (0,0)–(1,1) diagonal are
trees: row 0 is `. T`, row 1 is `T .`. -/
def corner_map : MovingAiMap :=
  ⟨"octile", 2, 2, ['.', 'T', 'T', '.']⟩

/-- A 2×2 octile map holding water, ground, swamp and an obstacle:
row 0 is `W .`, row 1 is `S @`. -/
def wmap : MovingAiMap :=
  ⟨"octile", 2, 2, ['W', '.', 'S', '@']⟩

/-- A 3×3 map with nine pairwise distinct labels, for observing which flat
cell each access returns. -/
def map3 : MovingAiMap :=
  ⟨"octile", 3, 3, ['a', 'b', 'c', 'd', 'e', 'f', 'g', 'h', 'i']⟩

/-- A 3×3 all-open octile map. -/
def open3 : MovingAiMap :=
  ⟨"octile", 3, 3, ['.', '.', '.', '.', '.', '.', '.', '.', '.']⟩

/-- On a `usize` value below `2^31` the `as i32` cast is the identity. -/
lemma usizeAsI32_small {n : Nat} (h : n < 2 ^ 31) : usizeAsI32 n = n := by
  have h32 : n % 2 ^ 32 = n := Nat.mod_eq_of_lt (by omega)
  simp only [usizeAsI32, h32]
  rw [if_pos h]

/-- For a well-formed map, an in-bounds coordinate always yields a cell. -/
lemma get_cell_some (m : MovingAiMap) (c : Coords2D) (hwf : m.wf)
    (hb : m.is_out_of_bound c = false) : ∃ ch, m.get_cell c = some ch := by
  have hx : c.1 < m.width ∧ c.2 < m.height := by
    simpa [MovingAiMap.is_out_of_bound, Nat.not_le] using hb
  have hidx : c.2 * m.width + c.1 < m.map.length := by
    have h1 : c.2 * m.width + c.1 < (c.2 + 1) * m.width := by
      rw [Nat.succ_mul]; omega
    have h2 : (c.2 + 1) * m.width ≤ m.height * m.width :=
      Nat.mul_le_mul_right m.width (by omega)
    have hlen : m.map.length = m.height * m.width := hwf
    omega
  exact ⟨m.map.get ⟨_, hidx⟩, by simp [MovingAiMap.get_cell, List.get?_eq_get hidx]⟩

/-- The source's pair table coincides with the table as the spec words it. -/
lemma traverse_table_eq_spec_table (tc fc : Char) :
    traverse_table tc fc = spec_table tc fc := by
  unfold traverse_table spec_table
  split_ifs <;> simp_all

/-- A pair the source table accepts has a destination label the single-tile
table accepts. -/
lemma traverse_table_tile (tc fc : Char) (h : traverse_table tc fc = true) :
    tile_table tc = true := by
  unfold traverse_table at h
  unfold tile_table
  split_ifs at h ⊢ <;> simp_all

/-- Evaluation of `is_traversable_from` when every guard passes. -/
lemma is_traversable_from_eval (m : MovingAiMap) (from_ to_ : Coords2D) (tc fc : Char)
    (h1 : m.is_out_of_bound to_ = false) (h2 : m.is_out_of_bound from_ = false)
    (h3 : m.coordinates_connect to_ from_ = true)
    (ht : m.get_cell to_ = some tc) (hf : m.get_cell from_ = some fc) :
    m.is_traversable_from from_ to_ = some (traverse_table tc fc) := by
  simp [MovingAiMap.is_traversable_from, h1, h2, h3, ht, hf]

/-- Inversion: a legal step passed every guard and the pair table. -/
lemma is_traversable_from_some_true (m : MovingAiMap) (from_ to_ : Coords2D)
    (h : m.is_traversable_from from_ to_ = some true) :
    m.is_out_of_bound to_ = false ∧ m.is_out_of_bound from_ = false ∧
      m.coordinates_connect to_ from_ = true ∧
      ∃ tc fc, m.get_cell to_ = some tc ∧ m.get_cell from_ = some fc ∧
        traverse_table tc fc = true := by
  unfold MovingAiMap.is_traversable_from at h
  split at h
  · simp_all
  · split at h
    · simp_all
    · split at h
      · simp_all
      · split at h
        · simp_all
        · simp_all

/-- C1: on the octile map `corner_map` whose both corner tiles of the
(0,0)→(1,1) diagonal hold `T`, the diagonal step is reported legal even though
the orthogonal sub-steps into the corners are illegal: `is_traversable_from`
contains no corner-cutting rule, refuting the claim that a diagonal step is
legal only if all four orthogonal sub-steps are legal. -/
theorem claim_C1 :
    corner_map.map_type = "octile"
    ∧ corner_map.get_cell (1, 0) = some 'T'
    ∧ corner_map.get_cell (0, 1) = some 'T'
    ∧ corner_map.get_cell (1, 1) = some '.'
    ∧ corner_map.is_traversable_from (0, 0) (1, 1) = some true
    ∧ corner_map.is_traversable_from (0, 0) (0, 1) = some false
    ∧ corner_map.is_traversable_from (0, 0) (1, 0) = some false := by
  decide

/-- C2: for in-bounds, adjacent coordinates whose step is not diagonal (or on
a non-octile map), `is_traversable_from` is decided exactly by the
`(label(to), label(from))` table as the spec words it. -/
theorem claim_C2 (m : MovingAiMap) (from_ to_ : Coords2D) (tc fc : Char)
    (h1 : m.is_out_of_bound to_ = false) (h2 : m.is_out_of_bound from_ = false)
    (h3 : m.coordinates_connect to_ from_ = true)
    (_h4 : m.map_type ≠ "octile" ∨ ¬(from_.1 ≠ to_.1 ∧ from_.2 ≠ to_.2))
    (ht : m.get_cell to_ = some tc) (hf : m.get_cell from_ = some fc) :
    m.is_traversable_from from_ to_ = some (spec_table tc fc) := by
  rw [is_traversable_from_eval m from_ to_ tc fc h1 h2 h3 ht hf,
    traverse_table_eq_spec_table]

/-- Witness for C2 at a concrete non-diagonal step of `wmap`. -/
theorem claim_C2_witness :
    wmap.is_traversable_from (0, 0) (1, 0) = some (spec_table '.' 'W') :=
  claim_C2 wmap (0, 0) (1, 0) '.' 'W' (by decide) (by decide) (by decide)
    (by decide) (by decide) (by decide)

/-- C3 counterexample: on `wmap` the tiles (0,0)=`W`, (1,0)=`.`, (0,1)=`S`
are in bounds and pairwise adjacent, yet the step from the water tile onto
the ground tile returns `true` — the claim asserts it returns `false`. -/
theorem claim_C3_cex :
    wmap.get_cell (0, 0) = some 'W' ∧ wmap.get_cell (1, 0) = some '.'
    ∧ wmap.get_cell (0, 1) = some 'S'
    ∧ wmap.is_out_of_bound (0, 0) = false ∧ wmap.is_out_of_bound (1, 0) = false
    ∧ wmap.is_out_of_bound (0, 1) = false
    ∧ wmap.coordinates_connect (0, 0) (1, 0) = true
    ∧ wmap.coordinates_connect (1, 0) (0, 1) = true
    ∧ wmap.coordinates_connect (0, 0) (0, 1) = true
    ∧ wmap.is_traversable_from (0, 0) (1, 0) = some true := by
  decide

/-- C3 amended: stepping from water onto open ground is *true* (destination
`.` is enterable from any source), ground onto swamp is true, and swamp and
water never directly interconnect (false in both directions). -/
theorem claim_C3 (m : MovingAiMap) (w g s : Coords2D)
    (hw : m.get_cell w = some 'W') (hg : m.get_cell g = some '.')
    (hs : m.get_cell s = some 'S')
    (hbw : m.is_out_of_bound w = false) (hbg : m.is_out_of_bound g = false)
    (hbs : m.is_out_of_bound s = false)
    (c1 : m.coordinates_connect g w = true) (c2 : m.coordinates_connect s g = true)
    (c3 : m.coordinates_connect w s = true) (c4 : m.coordinates_connect s w = true) :
    m.is_traversable_from w g = some true ∧ m.is_traversable_from g s = some true
    ∧ m.is_traversable_from s w = some false
    ∧ m.is_traversable_from w s = some false := by
  refine ⟨?_, ?_, ?_, ?_⟩
  · rw [is_traversable_from_eval m w g '.' 'W' hbg hbw c1 hg hw]; decide
  · rw [is_traversable_from_eval m g s 'S' '.' hbs hbg c2 hs hg]; decide
  · rw [is_traversable_from_eval m s w 'W' 'S' hbw hbs c3 hw hs]; decide
  · rw [is_traversable_from_eval m w s 'S' 'W' hbs hbw c4 hs hw]; decide

/-- Witness for C3 on the concrete map `wmap`. -/
theorem claim_C3_witness :
    wmap.is_traversable_from (0, 0) (1, 0) = some true
    ∧ wmap.is_traversable_from (1, 0) (0, 1) = some true
    ∧ wmap.is_traversable_from (0, 1) (0, 0) = some false
    ∧ wmap.is_traversable_from (0, 0) (0, 1) = some false :=
  claim_C3 wmap (0, 0) (1, 0) (0, 1) (by decide) (by decide) (by decide)
    (by decide) (by decide) (by decide) (by decide) (by decide) (by decide)
    (by decide)

/-- C4 counterexample: `map3` is a well-formed 3×3 map built by `new`; the
coordinate (5, 1) is out of bounds per axis (x = 5 ≥ width = 3), yet
`get_cell` does not fail — it returns the cell at flat index 1*3+5 = 8,
aliasing into a later row. -/
theorem claim_C4_cex :
    MovingAiMap.new "octile" 3 3 ['a', 'b', 'c', 'd', 'e', 'f', 'g', 'h', 'i']
      = some map3
    ∧ ((5 : Nat) ≥ map3.width ∨ (1 : Nat) ≥ map3.height)
    ∧ map3.get_cell (5, 1) = some 'i' :=
  ⟨rfl, by decide, by decide⟩

/-- C4 amended: `get_cell` fails exactly when the flat row-major index
`y*width + x` reaches the cell vector's length `height*width`; any smaller
index — including ones with `x ≥ width` — returns the stored label at that
flat index. -/
theorem claim_C4 (m : MovingAiMap) (c : Coords2D) (hwf : m.wf) :
    (m.get_cell c = none ↔ m.height * m.width ≤ c.2 * m.width + c.1)
    ∧ ∀ h : c.2 * m.width + c.1 < m.map.length,
        m.get_cell c = some (m.map.get ⟨c.2 * m.width + c.1, h⟩) := by
  have hlen : m.map.length = m.height * m.width := hwf
  constructor
  · rw [MovingAiMap.get_cell, List.get?_eq_none, hlen]
  · intro h; simp [MovingAiMap.get_cell, List.get?_eq_get h]

/-- Witness for C4 at a failing and a succeeding flat index of `map3`. -/
theorem claim_C4_witness :
    map3.get_cell (0, 3) = none ∧ map3.get_cell (2, 1) = some 'f' := by
  refine ⟨(claim_C4 map3 (0, 3) (by decide)).1.mpr (by decide), ?_⟩
  rw [(claim_C4 map3 (2, 1) (by decide)).2 (by decide)]
  decide

/-- The boolean bound check, unfolded to its per-axis condition. -/
lemma is_out_of_bound_iff (m : MovingAiMap) (c : Coords2D) :
    m.is_out_of_bound c = true ↔ m.width ≤ c.1 ∨ m.height ≤ c.2 := by
  simp [MovingAiMap.is_out_of_bound]

/-- C5: `is_traversable` returns false on an out-of-bounds tile, and on an
in-bounds tile of a well-formed map it returns true exactly when the stored
label is one of `.`, `G`, `S`, `W`. -/
theorem claim_C5 (m : MovingAiMap) (tile : Coords2D) (hwf : m.wf) :
    (m.is_out_of_bound tile = true → m.is_traversable tile = some false)
    ∧ (m.is_out_of_bound tile = false →
        ∃ c, m.get_cell tile = some c ∧
          m.is_traversable tile
            = some (decide (c = '.' ∨ c = 'G' ∨ c = 'S' ∨ c = 'W'))) := by
  constructor
  · intro hb; simp [MovingAiMap.is_traversable, hb]
  · intro hb
    obtain ⟨c, hc⟩ := get_cell_some m tile hwf hb
    have htab : tile_table c = decide (c = '.' ∨ c = 'G' ∨ c = 'S' ∨ c = 'W') := by
      unfold tile_table; split_ifs <;> simp_all
    exact ⟨c, hc, by simp [MovingAiMap.is_traversable, hb, hc, htab]⟩

/-- Witness for C5 on an out-of-bounds and an in-bounds tile of `open3`. -/
theorem claim_C5_witness :
    open3.is_traversable (3, 0) = some false
    ∧ open3.is_traversable (1, 1) = some true := by
  refine ⟨(claim_C5 open3 (3, 0) (by decide)).1 (by decide), ?_⟩
  obtain ⟨c, hc, hres⟩ := (claim_C5 open3 (1, 1) (by decide)).2 (by decide)
  have hc' : c = '.' := by
    have h2 : open3.get_cell (1, 1) = some '.' := by decide
    rw [hc] at h2; exact (Option.some.inj h2)
  rw [hres, hc']
  decide

/-- C6: both query methods return `some false` — false, with no panic — for
any out-of-bounds argument, and `is_traversable_from` also returns
`some false` whenever the two coordinates do not connect under the map's
topology. -/
theorem claim_C6 :
    (∀ (m : MovingAiMap) (tile : Coords2D),
      m.width ≤ tile.1 ∨ m.height ≤ tile.2 → m.is_traversable tile = some false)
    ∧ (∀ (m : MovingAiMap) (from_ to_ : Coords2D),
      (m.width ≤ from_.1 ∨ m.height ≤ from_.2) ∨ (m.width ≤ to_.1 ∨ m.height ≤ to_.2) →
        m.is_traversable_from from_ to_ = some false)
    ∧ (∀ (m : MovingAiMap) (from_ to_ : Coords2D),
      m.coordinates_connect to_ from_ = false →
        m.is_traversable_from from_ to_ = some false) := by
  refine ⟨?_, ?_, ?_⟩
  · intro m tile h
    have hb : m.is_out_of_bound tile = true := (is_out_of_bound_iff m tile).mpr h
    simp [MovingAiMap.is_traversable, hb]
  · intro m from_ to_ h
    rcases Bool.eq_false_or_eq_true (m.is_out_of_bound to_) with hto | hto
    · simp [MovingAiMap.is_traversable_from, hto]
    · have hfrom : m.is_out_of_bound from_ = true := by
        rw [is_out_of_bound_iff]
        rcases h with h' | h'
        · exact h'
        · exact absurd ((is_out_of_bound_iff m to_).mpr h') (by simp [hto])
      simp [MovingAiMap.is_traversable_from, hto, hfrom]
  · intro m from_ to_ h
    rcases Bool.eq_false_or_eq_true (m.is_out_of_bound to_) with hto | hto
    · simp [MovingAiMap.is_traversable_from, hto]
    · rcases Bool.eq_false_or_eq_true (m.is_out_of_bound from_) with hfrom | hfrom
      · simp [MovingAiMap.is_traversable_from, hto, hfrom]
      · simp [MovingAiMap.is_traversable_from, hto, hfrom, h]

/-- Witness for C6: out-of-bounds tile, out-of-bounds source, and a
non-adjacent pair, on the all-open map `open3`. -/
theorem claim_C6_witness :
    open3.is_traversable (5, 0) = some false
    ∧ open3.is_traversable_from (0, 5) (0, 0) = some false
    ∧ open3.is_traversable_from (0, 0) (2, 2) = some false :=
  ⟨claim_C6.1 open3 (5, 0) (Or.inl (by decide)),
   claim_C6.2.1 open3 (0, 5) (0, 0) (Or.inl (Or.inr (by decide))),
   claim_C6.2.2 open3 (0, 0) (2, 2) (by decide)⟩

/-- C7 counterexample: on an octile map, `coordinates_connect` reports the
coordinates (0,0) and (2^32 − 1, 0) as connected because `usize as i32`
truncates 2^32 − 1 to −1, although the first components differ by far more
than 1 — refuting the claim at this pair. -/
theorem claim_C7_cex :
    map3.map_type = "octile"
    ∧ map3.coordinates_connect (0, 0) (2 ^ 32 - 1, 0) = true
    ∧ ¬((((0 : Nat) : Int) - ((2 ^ 32 - 1 : Nat) : Int)).natAbs ≤ 1) :=
  ⟨rfl, by decide, by decide⟩

/-- C7 amended: restricted to coordinates whose components stay below
2^31 − 1 (so the `as i32` casts and the ±1 arithmetic are exact),
`coordinates_connect` is 8-connected adjacency (also at a = b) when the map
type is the string "octile", and strict 4-connected orthogonal adjacency
(false at a = b) for every other map type. -/
theorem claim_C7 (m : MovingAiMap) (a b : Coords2D)
    (ha1 : a.1 < 2 ^ 31 - 1) (ha2 : a.2 < 2 ^ 31 - 1)
    (hb1 : b.1 < 2 ^ 31 - 1) (hb2 : b.2 < 2 ^ 31 - 1) :
    m.coordinates_connect a b = true ↔
      (m.map_type = "octile"
        ∧ ((a.1 : Int) - b.1).natAbs ≤ 1 ∧ ((a.2 : Int) - b.2).natAbs ≤ 1)
      ∨ (m.map_type ≠ "octile"
        ∧ ((a.2 = b.2 ∧ ((a.1 : Int) - b.1).natAbs = 1)
           ∨ (a.1 = b.1 ∧ ((a.2 : Int) - b.2).natAbs = 1))) := by
  simp only [MovingAiMap.coordinates_connect,
    usizeAsI32_small (show a.1 < 2 ^ 31 by omega),
    usizeAsI32_small (show a.2 < 2 ^ 31 by omega),
    usizeAsI32_small (show b.1 < 2 ^ 31 by omega),
    usizeAsI32_small (show b.2 < 2 ^ 31 by omega)]
  by_cases hoct : m.map_type = "octile"
  · rw [if_pos hoct]
    simp [hoct, Bool.and_eq_true]
  · rw [if_neg hoct]
    simp only [hoct, decide_eq_true_eq, ne_eq, not_false_iff, false_and,
      true_and, false_or]
    constructor
    · intro h'
      rcases h' with ⟨hy, hx⟩ | ⟨hx, hy⟩
      · refine Or.inl ⟨by exact_mod_cast hy.symm, ?_⟩
        rw [Int.natAbs_eq_iff]; omega
      · refine Or.inr ⟨by exact_mod_cast hx.symm, ?_⟩
        rw [Int.natAbs_eq_iff]; omega
    · intro h'
      rcases h' with ⟨hy, hx⟩ | ⟨hx, hy⟩
      · rw [Int.natAbs_eq_iff] at hx
        refine Or.inl ⟨by exact_mod_cast hy.symm, by omega⟩
      · rw [Int.natAbs_eq_iff] at hy
        refine Or.inr ⟨by exact_mod_cast hx.symm, by omega⟩

/-- Witness for C7 at concrete small coordinates under both topologies. -/
theorem claim_C7_witness :
    (open3.coordinates_connect (1, 1) (2, 2) = true ↔
      (open3.map_type = "octile"
        ∧ (((1 : Nat) : Int) - (2 : Nat)).natAbs ≤ 1
        ∧ (((1 : Nat) : Int) - (2 : Nat)).natAbs ≤ 1)
      ∨ (open3.map_type ≠ "octile"
        ∧ (((1 : Nat) = (2 : Nat) ∧ (((1 : Nat) : Int) - (2 : Nat)).natAbs = 1)
           ∨ ((1 : Nat) = (2 : Nat) ∧ (((1 : Nat) : Int) - (2 : Nat)).natAbs = 1)))) :=
  claim_C7 open3 (1, 1) (2, 2) (by decide) (by decide) (by decide) (by decide)

/-- C8: the constructor fails exactly when the cell vector's length differs
from `height*width`; on matching lengths it returns the map holding exactly
the supplied fields, so no object is observable after a failed check. -/
theorem claim_C8 (mt : String) (h w : Nat) (map : List Char) :
    (MovingAiMap.new mt h w map = none ↔ map.length ≠ h * w)
    ∧ (map.length = h * w → MovingAiMap.new mt h w map = some ⟨mt, h, w, map⟩) := by
  unfold MovingAiMap.new
  constructor
  · split_ifs with hc <;> simp [hc]
  · intro he; simp [he]

/-- Witness for C8: a mismatched and a matching construction. -/
theorem claim_C8_witness :
    MovingAiMap.new "octile" 2 2 ['.', '.', '.'] = none
    ∧ MovingAiMap.new "tst" 1 2 ['.', 'W'] = some ⟨"tst", 1, 2, ['.', 'W']⟩ :=
  ⟨(claim_C8 "octile" 2 2 ['.', '.', '.']).1.mpr (by decide),
   (claim_C8 "tst" 1 2 ['.', 'W']).2 (by decide)⟩

/-- C9: every destination of a legal directed step is itself traversable. -/
theorem claim_C9 (m : MovingAiMap) (from_ to_ : Coords2D)
    (h : m.is_traversable_from from_ to_ = some true) :
    m.is_traversable to_ = some true := by
  obtain ⟨hto, -, -, tc, fc, htc, hfc, htab⟩ :=
    is_traversable_from_some_true m from_ to_ h
  simp [MovingAiMap.is_traversable, hto, htc, traverse_table_tile tc fc htab]

/-- Witness for C9 at a concrete legal step of `open3`. -/
theorem claim_C9_witness : open3.is_traversable (1, 0) = some true :=
  claim_C9 open3 (0, 0) (1, 0) (by decide)

/-- C10: a step onto a `.` or `G` destination is legal regardless of the
source label — in particular out of an obstacle tile, and (on an octile map)
as the zero-length self-step, since a coordinate connects to itself. -/
theorem claim_C10 (m : MovingAiMap) (from_ to_ : Coords2D) (c : Char) (hwf : m.wf)
    (h1 : m.is_out_of_bound to_ = false) (h2 : m.is_out_of_bound from_ = false)
    (h3 : m.coordinates_connect to_ from_ = true)
    (ht : m.get_cell to_ = some c) (hc : c = '.' ∨ c = 'G') :
    m.is_traversable_from from_ to_ = some true := by
  obtain ⟨fc, hf⟩ := get_cell_some m from_ hwf h2
  rw [is_traversable_from_eval m from_ to_ c fc h1 h2 h3 ht hf]
  rcases hc with rfl | rfl <;> rfl

/-- Witness for C10: a step out of the obstacle tile of `wmap` onto open
ground, and the octile self-step on an open tile of `open3`. -/
theorem claim_C10_witness :
    wmap.is_traversable_from (1, 1) (1, 0) = some true
    ∧ open3.is_traversable_from (1, 1) (1, 1) = some true :=
  ⟨claim_C10 wmap (1, 1) (1, 0) '.' (by decide) (by decide) (by decide)
      (by decide) (by decide) (Or.inl rfl),
   claim_C10 open3 (1, 1) (1, 1) '.' (by decide) (by decide) (by decide)
      (by decide) (by decide) (Or.inl rfl)⟩
